import Mathlib

/-
Verification of the space-strike simulation engine against its source.

The simulation lives in the Game view component (src/unnamed/part_001):
player health / lives / score, the damage and invincibility state machine
(damagePlayer, lines 275-333), game over (endGame, lines 336-349), the
spawn director (spawnEnemy, lines 232-272, and the interval set up in
startGame, lines 352-373), the weapon cooldown (updateGame, lines 444-451,
fireProjectile, lines 215-229, and GameController.createProjectile), and
the per-tick enemy pass (updateEnemies, lines 537-643).  High-score
persistence is updateHighScore in src/src/utils/gameStorage.ts.

Numbers: JavaScript numbers are modelled as exact rationals where the code
does arithmetic on them (positions, damage, cooldown products) and as
Nat / Int where the code only ever holds integers (health, lives, score,
millisecond timestamps).  The Euclidean distance test of
GameController.checkCollision is modelled in squared form
(distSq < (r1+r2)^2), which is equivalent to (dist < r1+r2) for
nonnegative radii and keeps the model inside rational arithmetic.

Deferred work (setTimeout) is modelled as countdown fields in the state,
advanced by an explicit elapse step that fires every countdown whose
deadline falls inside the elapsed interval.  The three countdowns
(endGame after 50 ms, health restore after 500 ms, invincibility clear
after 1000 ms) have independent, commuting effects, so firing all due
ones in one elapse step is faithful.  At most one instance of each can be
pending at a time in a reachable state, because every schedule site runs
under the invincibility guard and the invincibility window (1000 ms)
outlives the other two deadlines; an Option countdown therefore
represents the pending-timeout set faithfully.

Closure capture: the animation loop and the spawn interval are created
exactly once, inside the mount effect of the component (useEffect with an
empty dependency list calls startGame, line 118).  Every function that
chain reaches - animate, updateGame, updateEnemies, damagePlayer, endGame,
and the interval callback - is therefore the instance created during the
FIRST render, and the React state values those closures read (gameOver,
isPaused, score) are frozen at their initial-render values (false, false,
0) for the whole session; only values read through refs
(playerRef.current.isInvincible, lastFireTime, positions) are live.  The
model makes each such captured value an explicit argument of the
corresponding definition, and the mount wiring instantiates them with the
initial-render constants.
-/

/-- Three-component vector with exact rational coordinates, standing for a
THREE.Vector3 used as plain data. -/
structure Vec3 where
  x : ℚ
  y : ℚ
  z : ℚ
  deriving DecidableEq

/-- Enemy record: the data GameController.createEnemy attaches to the enemy
object (position, velocity, health, points).  Lines 171-232 of
gameController.ts. -/
structure Enemy where
  pos : Vec3
  vel : Vec3
  health : ℚ
  points : ℕ
  deriving DecidableEq

/-- Projectile record: the data GameController.createProjectile attaches to
the projectile object (position, velocity, damage, lifetime in ms).
Lines 121-160 of gameController.ts. -/
structure Projectile where
  pos : Vec3
  vel : Vec3
  damage : ℚ
  lifetime : ℚ
  deriving DecidableEq

/-- Difficulty setting read from the settings context. -/
inductive Difficulty where
  | easy
  | medium
  | hard
  deriving DecidableEq

/-- Game session state of the Game component: the React state hooks
(playerHealth, playerLives, score, gameOver, isPaused), the mutable refs
(playerRef.current.isInvincible, position, lastFireTime, the enemy and
projectile arrays), the pending setTimeout deadlines as millisecond
countdowns, and a log of the arguments of the updateHighScore calls made
so far.  forward is the unit forward vector of the ship, the value of
(0,1,0) rotated by playerRef.current.rotation (the trigonometric rotation
itself stays outside the rational model).  effects counts the explosion
effects pushed so far. -/
structure GState where
  health : ℤ
  lives : ℤ
  score : ℕ
  gameOver : Bool
  isPaused : Bool
  isInvincible : Bool
  invT : Option ℕ
  restoreT : Option ℕ
  endT : Option ℕ
  hsCalls : List ℕ
  pos : Vec3
  forward : Vec3
  lastFireTime : ℕ
  enemies : List Enemy
  projectiles : List Projectile
  effects : ℕ
  deriving DecidableEq

/-- Initial session state: health 100, lives 3, score 0 (lines 26-30 of the
Game component), no pending timeouts, player at the origin facing +Y,
lastFireTime 0, no entities. -/
def initState : GState :=
  { health := 100
    lives := 3
    score := 0
    gameOver := false
    isPaused := false
    isInvincible := false
    invT := none
    restoreT := none
    endT := none
    hsCalls := []
    pos := ⟨0, 0, 0⟩
    forward := ⟨0, 1, 0⟩
    lastFireTime := 0
    enemies := []
    projectiles := []
    effects := 0 }

/-- endGame (Game component, lines 336-349): sets gameOver and isPaused,
pins lives to 0, and calls updateHighScore with the score value the
closure captured when it was created (capturedScore); the call is recorded
in the hsCalls log.  The dispatch of the redux endGame action and the
visual work are outside this state. -/
def endGame (capturedScore : ℕ) (s : GState) : GState :=
  { s with gameOver := true
           isPaused := true
           lives := 0
           hsCalls := s.hsCalls ++ [capturedScore] }

/-- damagePlayer (Game component, lines 275-310).  The guard reads the live
isInvincible ref and the gameOver value captured by the closure
(capturedGameOver).  Health is lowered to max 0 (health - amount); if it
reaches 0 the lives counter is decremented, and either endGame is
scheduled 50 ms out (newLives less or equal 0) or a health restore is
scheduled 500 ms out.  Invincibility is then switched on with a 1000 ms
clearing timeout.  Damage amounts in the game are nonnegative integers
(10, 20, 30, 50), hence amount : ℕ. -/
def damagePlayer (capturedGameOver : Bool) (amount : ℕ) (s : GState) : GState :=
  if s.isInvincible || capturedGameOver then s
  else
    let newHealth : ℤ := max 0 (s.health - (amount : ℤ))
    let s1 := { s with health := newHealth }
    let s2 :=
      if newHealth = 0 then
        let newLives := s1.lives - 1
        if newLives ≤ 0 then { s1 with lives := newLives, endT := some 50 }
        else { s1 with lives := newLives, restoreT := some 500 }
      else s1
    { s2 with isInvincible := true, invT := some 1000 }

/-- Passage of n milliseconds of wall-clock time: every pending timeout
whose remaining delay is at most n fires (endGame with the score value
capturedScore frozen in its closure, the health restore to 100, the
invincibility clear), the others keep counting down.  The three timeout
bodies touch disjoint parts of the state, so firing order inside one
elapse is immaterial. -/
def elapse (capturedScore : ℕ) (n : ℕ) (s : GState) : GState :=
  let s1 :=
    match s.endT with
    | some t => if t ≤ n then { endGame capturedScore s with endT := none }
                else { s with endT := some (t - n) }
    | none => s
  let s2 :=
    match s1.restoreT with
    | some t => if t ≤ n then { s1 with health := 100, restoreT := none }
                else { s1 with restoreT := some (t - n) }
    | none => s1
  match s2.invT with
  | some t => if t ≤ n then { s2 with isInvincible := false, invT := none }
              else { s2 with invT := some (t - n) }
  | none => s2

/-- External events driving the damage state machine: a damagePlayer call
from the collision code, or n milliseconds elapsing. -/
inductive GEvent where
  | damage (amount : ℕ)
  | elapse (ms : ℕ)
  deriving DecidableEq

/-- One event step, with the closure-captured gameOver flag and score value
as explicit parameters. -/
def stepEvent (capturedGameOver : Bool) (capturedScore : ℕ) (s : GState) :
    GEvent → GState
  | GEvent.damage a => damagePlayer capturedGameOver a s
  | GEvent.elapse n => elapse capturedScore n s

/-- Run of a list of events. -/
def run (capturedGameOver : Bool) (capturedScore : ℕ)
    (evs : List GEvent) (s : GState) : GState :=
  evs.foldl (stepEvent capturedGameOver capturedScore) s

/-- Run under the mount wiring: the loop-created closures captured
gameOver = false and score = 0 from the first render (see the header
note on closure capture). -/
def runMounted (evs : List GEvent) (s : GState) : GState :=
  run false 0 evs s

/-- Enemy stats of spawnEnemy (Game component, lines 232-272): the switch
on difficulty yields health 5 / 10 / 15, descent speed 1.5 / 2 / 3, points
50 / 100 / 150 for easy / medium / hard (the medium values coincide with
the defaults the switch overwrites).  rand is the Math.random() draw; the
x position is rand * 20 - 10 and the enemy starts at y = 20 descending
straight down. -/
def spawnEnemy (d : Difficulty) (rand : ℚ) : Enemy :=
  let stats : ℚ × ℚ × ℕ :=
    match d with
    | Difficulty.easy => (5, 3/2, 50)
    | Difficulty.medium => (10, 2, 100)
    | Difficulty.hard => (15, 3, 150)
  { pos := ⟨rand * 20 - 10, 20, 0⟩
    vel := ⟨0, -stats.2.1, 0⟩
    health := stats.1
    points := stats.2.2 }

/-- Spawn interval of startGame (Game component, lines 352-366): 3000 ms
easy, 2000 ms medium, 1000 ms hard. -/
def spawnIntervalFor : Difficulty → ℕ
  | Difficulty.easy => 3000
  | Difficulty.medium => 2000
  | Difficulty.hard => 1000

/-- One firing of the enemy spawn interval (Game component, lines 369-373):
the callback spawns an enemy only when the isPaused and gameOver values it
captured at creation time are both false, and pushes it onto the enemy
array.  The interval is created once in startGame during the mount effect,
so those captured values are the initial-render ones. -/
def spawnTimerTick (capturedIsPaused capturedGameOver : Bool)
    (d : Difficulty) (rand : ℚ) (s : GState) : GState :=
  if !capturedIsPaused && !capturedGameOver then
    { s with enemies := s.enemies ++ [spawnEnemy d rand] }
  else s

/-- Tunables read from the settings context by the Game component. -/
structure Config where
  fireRate : ℚ
  fireSpeed : ℚ
  fireStrength : ℚ
  deriving DecidableEq

/-- GameController.createProjectile (gameController.ts, lines 121-160):
a projectile at the given position whose velocity is the direction vector
normalized and scaled by speed, with the given damage and the default
lifetime of 2000 ms.  The direction handed over by fireProjectile is
(0,1,0) rotated by the ship rotation and hence already a unit vector
(rotation preserves length), so the normalization step is the identity
and the model scales the direction directly. -/
def createProjectile (position dir : Vec3) (speed damage : ℚ) : Projectile :=
  { pos := position
    vel := ⟨dir.x * speed, dir.y * speed, dir.z * speed⟩
    damage := damage
    lifetime := 2000 }

/-- fireProjectile (Game component, lines 215-229): create a projectile at
the player position along the ship forward vector with the configured
fire speed and strength, and push it onto the projectile array. -/
def fireProjectile (cfg : Config) (s : GState) : GState :=
  { s with projectiles :=
      s.projectiles ++ [createProjectile s.pos s.forward cfg.fireSpeed cfg.fireStrength] }

/-- Weapon step of updateGame (Game component, lines 444-451), taken on a
tick whose key snapshot has the fire key down: with now = Date.now(), fire
and record now as lastFireTime when lastFireTime is still 0 (falsy) or
now - lastFireTime exceeds fireRate * 100 milliseconds; otherwise do
nothing. -/
def fireTick (cfg : Config) (now : ℕ) (s : GState) : GState :=
  if s.lastFireTime = 0 ∨ ((now : ℚ) - (s.lastFireTime : ℚ) > cfg.fireRate * 100) then
    { fireProjectile cfg s with lastFireTime := now }
  else s

/-- Bottom-of-screen damage switch of updateEnemies (Game component, lines
554-559): 10 / 20 / 30 for easy / medium / hard. -/
def bottomDamageFor : Difficulty → ℕ
  | Difficulty.easy => 10
  | Difficulty.medium => 20
  | Difficulty.hard => 30

/-- Player-collision damage switch of updateEnemies (Game component, lines
586-591): 20 / 30 / 50 for easy / medium / hard. -/
def collisionDamageFor : Difficulty → ℕ
  | Difficulty.easy => 20
  | Difficulty.medium => 30
  | Difficulty.hard => 50

/-- Squared Euclidean distance between two points. -/
def distSq (a b : Vec3) : ℚ :=
  (a.x - b.x) * (a.x - b.x) + (a.y - b.y) * (a.y - b.y) + (a.z - b.z) * (a.z - b.z)

/-- GameController.checkCollision (gameController.ts, lines 359-367):
true when the distance between the two positions is below the radius sum,
stated on squares to stay in rational arithmetic (equivalent for
nonnegative radii). -/
def checkCollision (a b : Vec3) (r1 r2 : ℚ) : Bool :=
  decide (distSq a b < (r1 + r2) * (r1 + r2))

/-- Inner projectile loop of updateEnemies (Game component, lines 603-641)
for one enemy at position epos with current health eh, processing the
projectile array from the highest index down - hence this function is
applied to the reversed array.  A colliding projectile (radii 0.2 and 0.8)
damages the enemy and is consumed; when the health drops to or below 0
the scan breaks, leaving the not-yet-visited projectiles untouched, and
reports the enemy destroyed.  Returns the surviving projectiles (still in
reversed order), the remaining enemy health, and the destroyed flag. -/
def takeHits (epos : Vec3) (eh : ℚ) : List Projectile → List Projectile × ℚ × Bool
  | [] => ([], eh, false)
  | p :: rest =>
    if checkCollision p.pos epos (1/5) (4/5) then
      if eh - p.damage ≤ 0 then (rest, eh - p.damage, true)
      else takeHits epos (eh - p.damage) rest
    else
      match takeHits epos eh rest with
      | (rest2, eh2, destroyed) => (p :: rest2, eh2, destroyed)

/-- Body of the per-enemy iteration of updateEnemies (Game component, lines
543-642), threaded through the session state: first the enemy position is
advanced by its velocity; if the new y is below -15 the enemy is removed
and (when the captured gameOver flag g is false) damagePlayer is called
with the difficulty bottom damage - this branch is checked BEFORE any
projectile test; otherwise, when the player is not invincible and g is
false and the enemy overlaps the player (radii 1.0 and 1.5), damagePlayer
is called with the collision damage and the enemy is removed; otherwise
the projectile scan runs: a destroyed enemy is removed, an explosion is
pushed and its points credited to the score, a surviving enemy is kept
with its reduced health.  Kept enemies are consed onto the accumulator
enemy list, so a right fold over the array reproduces the source loop
from the last index down. -/
def enemyStep (g : Bool) (diff : Difficulty) (dt : ℚ) (e : Enemy) (s : GState) : GState :=
  let epos : Vec3 := ⟨e.pos.x + e.vel.x * dt, e.pos.y + e.vel.y * dt, e.pos.z + e.vel.z * dt⟩
  if epos.y < -15 then
    if g = false then damagePlayer g (bottomDamageFor diff) s else s
  else if (!s.isInvincible && !g) && checkCollision epos s.pos 1 (3/2) then
    damagePlayer g (collisionDamageFor diff) s
  else
    match takeHits epos e.health s.projectiles.reverse with
    | (psRev, eh, destroyed) =>
      if destroyed then
        { s with projectiles := psRev.reverse
                 score := s.score + e.points
                 effects := s.effects + 1 }
      else
        { s with projectiles := psRev.reverse
                 enemies := { e with pos := epos, health := eh } :: s.enemies }

/-- updateEnemies (Game component, lines 537-643): iterate over the enemy
array from the last index down to 0 (a right fold over the list), starting
from the state with an empty kept-enemy list. -/
def updateEnemies (g : Bool) (diff : Difficulty) (dt : ℚ) (s : GState) : GState :=
  s.enemies.foldr (enemyStep g diff dt) { s with enemies := [] }

/-- Persisted record of gameStorage.ts (the GameData interface, without the
settings blob, which updateHighScore never touches). -/
structure GameData where
  highScore : ℕ
  lastPlayed : ℕ
  totalGamesPlayed : ℕ
  deriving DecidableEq

/-- updateHighScore (gameStorage.ts, lines 53-68): when the incoming score
exceeds the stored high score, persist it together with the current time;
otherwise only refresh lastPlayed.  now stands for Date.now(). -/
def updateHighScore (score now : ℕ) (d : GameData) : GameData :=
  if score > d.highScore then { d with highScore := score, lastPlayed := now }
  else { d with lastPlayed := now }

/-- Helper: one updateHighScore call never lowers the stored high score. -/
theorem updateHighScore_mono (score now : ℕ) (d : GameData) :
    d.highScore ≤ (updateHighScore score now d).highScore := by
  unfold updateHighScore
  split
  next h => exact Nat.le_of_lt h
  next => exact Nat.le_refl _

/-- Helper: the stored high score is monotone along any call sequence
(each list entry is a score and a Date.now() value). -/
theorem updateHighScore_foldl_mono (evs : List (ℕ × ℕ)) (d : GameData) :
    d.highScore ≤
      (evs.foldl (fun st e => updateHighScore e.1 e.2 st) d).highScore := by
  induction evs generalizing d with
  | nil => simp
  | cons e rest ih =>
      exact le_trans (updateHighScore_mono e.1 e.2 d) (ih (updateHighScore e.1 e.2 d))

/-- Helper: damagePlayer never changes the score. -/
theorem damagePlayer_score (g : Bool) (a : ℕ) (s : GState) :
    (damagePlayer g a s).score = s.score := by
  unfold damagePlayer
  split
  · rfl
  · dsimp only
    split
    · split <;> rfl
    · rfl

/-- Helper: damagePlayer never changes the projectile array. -/
theorem damagePlayer_projectiles (g : Bool) (a : ℕ) (s : GState) :
    (damagePlayer g a s).projectiles = s.projectiles := by
  unfold damagePlayer
  split
  · rfl
  · dsimp only
    split
    · split <;> rfl
    · rfl

/-- Helper: damagePlayer never changes the enemy array. -/
theorem damagePlayer_enemies (g : Bool) (a : ℕ) (s : GState) :
    (damagePlayer g a s).enemies = s.enemies := by
  unfold damagePlayer
  split
  · rfl
  · dsimp only
    split
    · split <;> rfl
    · rfl

/-- Claim C1: while the isInvincible flag is true, a damagePlayer call of
any magnitude is a complete no-op on the session state - health, lives and
score are untouched and nothing is scheduled for later (the state,
including every pending countdown, is returned unchanged).  This holds for
either value of the captured gameOver flag, because the guard at the top
of damagePlayer returns immediately. -/
theorem claim_C1 (g : Bool) (amount : ℕ) (s : GState)
    (h : s.isInvincible = true) : damagePlayer g amount s = s := by
  simp [damagePlayer, h]

theorem claim_C1_witness :
    damagePlayer false 30 { initState with isInvincible := true } =
      { initState with isInvincible := true } :=
  claim_C1 false 30 { initState with isInvincible := true } rfl

/-- Claim C2 is violated by the code: from the initial state (health 100,
lives 3), three lethal damage events separated by the 1000 ms
invincibility window bring lives to 0 and fire endGame, but because the
loop-created damagePlayer closure captured gameOver = false at mount, a
fourth damage event that arrives after the invincibility window still
passes the guard, decrements lives again, and leaves lives = -1.  The
health component does stay inside the interval from 0 to 100; the lives
component does not stay nonnegative. -/
theorem claim_C2_run :
    (runMounted
      [GEvent.damage 100, GEvent.elapse 1000, GEvent.damage 100,
       GEvent.elapse 1000, GEvent.damage 100, GEvent.elapse 1000,
       GEvent.damage 1] initState).lives = -1 ∧
    (runMounted
      [GEvent.damage 100, GEvent.elapse 1000, GEvent.damage 100,
       GEvent.elapse 1000, GEvent.damage 100, GEvent.elapse 1000,
       GEvent.damage 1] initState).gameOver = true := by
  decide

/-- Claim C3 is violated by the code: after the run that exhausts the three
lives the state has gameOver = true and lives = 0, yet one further damage
event still mutates the player - lives drops to -1 - because the damage
path of the mounted game loop tests the gameOver value captured at the
first render (false), not the live one.  The gameOver flag itself does
stay true (nothing ever clears it during a session). -/
theorem claim_C3_run :
    (runMounted
      [GEvent.damage 100, GEvent.elapse 1000, GEvent.damage 100,
       GEvent.elapse 1000, GEvent.damage 100, GEvent.elapse 1000]
      initState).gameOver = true ∧
    (runMounted
      [GEvent.damage 100, GEvent.elapse 1000, GEvent.damage 100,
       GEvent.elapse 1000, GEvent.damage 100, GEvent.elapse 1000]
      initState).lives = 0 ∧
    (runMounted [GEvent.damage 1]
      (runMounted
        [GEvent.damage 100, GEvent.elapse 1000, GEvent.damage 100,
         GEvent.elapse 1000, GEvent.damage 100, GEvent.elapse 1000]
        initState)).lives = -1 := by
  decide

/-- Claim C4 is violated by the code on its last conjunct: from health 10,
lives 1 and score 500, damage(30) clamps health to 0, drops lives to 0,
schedules no health restore, and fires endGame 50 ms later (gameOver
becomes true) - all as claimed - but updateHighScore is invoked with 0,
the score value frozen inside the endGame closure at the first render,
not with the current score 500 (the hsCalls log records the argument). -/
theorem claim_C4_run :
    (runMounted [GEvent.damage 30, GEvent.elapse 50]
      { initState with health := 10, lives := 1, score := 500 }).health = 0 ∧
    (runMounted [GEvent.damage 30, GEvent.elapse 50]
      { initState with health := 10, lives := 1, score := 500 }).lives = 0 ∧
    (runMounted [GEvent.damage 30, GEvent.elapse 50]
      { initState with health := 10, lives := 1, score := 500 }).gameOver = true ∧
    (runMounted [GEvent.damage 30, GEvent.elapse 50]
      { initState with health := 10, lives := 1, score := 500 }).restoreT = none ∧
    (runMounted [GEvent.damage 30, GEvent.elapse 50]
      { initState with health := 10, lives := 1, score := 500 }).score = 500 ∧
    (runMounted [GEvent.damage 30, GEvent.elapse 50]
      { initState with health := 10, lives := 1, score := 500 }).hsCalls = [0] := by
  decide

/-- Claim C5: in a running session (not invincible, gameOver false, no
pending endGame), a player with health 20 and lives 2 who receives
damage(30) has health clamped to 0 and lives lowered to 1, and once the
500 ms recovery window has elapsed health is back at exactly 100, lives
is still 1, and no game over has been triggered. -/
theorem claim_C5 (s : GState) (hInv : s.isInvincible = false)
    (hH : s.health = 20) (hL : s.lives = 2) (hGO : s.gameOver = false)
    (hE : s.endT = none) :
    (runMounted [GEvent.damage 30] s).health = 0 ∧
    (runMounted [GEvent.damage 30] s).lives = 1 ∧
    (runMounted [GEvent.damage 30, GEvent.elapse 500] s).health = 100 ∧
    (runMounted [GEvent.damage 30, GEvent.elapse 500] s).lives = 1 ∧
    (runMounted [GEvent.damage 30, GEvent.elapse 500] s).gameOver = false := by
  simp [runMounted, run, stepEvent, damagePlayer, elapse, hInv, hH, hL, hGO, hE]

theorem claim_C5_witness :
    (runMounted [GEvent.damage 30] { initState with health := 20, lives := 2 }).health = 0 ∧
    (runMounted [GEvent.damage 30] { initState with health := 20, lives := 2 }).lives = 1 ∧
    (runMounted [GEvent.damage 30, GEvent.elapse 500]
      { initState with health := 20, lives := 2 }).health = 100 ∧
    (runMounted [GEvent.damage 30, GEvent.elapse 500]
      { initState with health := 20, lives := 2 }).lives = 1 ∧
    (runMounted [GEvent.damage 30, GEvent.elapse 500]
      { initState with health := 20, lives := 2 }).gameOver = false :=
  claim_C5 { initState with health := 20, lives := 2 } rfl rfl rfl rfl rfl

/-- Claim C6 as stated is false: with the default fireRate of 0.2 the
claimed cooldown is fireRate * 1000 = 200 ms, but the code compares
against fireRate * 100 = 20 ms.  Concretely, at now = 1000 with
lastFireTime = 950 only 50 ms have elapsed - the claimed condition
50 at least 200 fails - yet the code creates a projectile. -/
theorem claim_C6_counter :
    (fireTick ⟨1/5, 30, 1⟩ 1000 { initState with lastFireTime := 950 }).projectiles.length =
      ({ initState with lastFireTime := 950 } : GState).projectiles.length + 1 ∧
    ¬ ((1000 : ℚ) - (950 : ℚ) ≥ (1/5 : ℚ) * 1000) := by
  refine ⟨?_, by norm_num⟩
  unfold fireTick
  split
  next => simp [fireProjectile, createProjectile, initState]
  next h => exact absurd (Or.inr (by norm_num [initState])) h

/-- Claim C6, amended to the condition the code uses: on a tick with fire
intent, a projectile is created if and only if lastFireTime is still 0
(never fired, a falsy timestamp) or strictly more than
fireRate * 100 milliseconds have elapsed since the last shot; on firing,
the projectile sits at the player position with velocity the forward
vector scaled by the configured fire speed, damage the configured fire
strength and lifetime 2000 ms, and lastFireTime becomes now; otherwise
the state is returned unchanged (nothing buffered). -/
theorem claim_C6 (cfg : Config) (now : ℕ) (s : GState) :
    ((s.lastFireTime = 0 ∨ ((now : ℚ) - (s.lastFireTime : ℚ) > cfg.fireRate * 100)) →
      fireTick cfg now s =
        { s with
            projectiles := s.projectiles ++
              [{ pos := s.pos
                 vel := ⟨s.forward.x * cfg.fireSpeed, s.forward.y * cfg.fireSpeed,
                         s.forward.z * cfg.fireSpeed⟩
                 damage := cfg.fireStrength
                 lifetime := 2000 }]
            lastFireTime := now }) ∧
    (¬ (s.lastFireTime = 0 ∨ ((now : ℚ) - (s.lastFireTime : ℚ) > cfg.fireRate * 100)) →
      fireTick cfg now s = s) := by
  constructor
  · intro h
    unfold fireTick fireProjectile createProjectile
    rw [if_pos h]
  · intro h
    unfold fireTick
    rw [if_neg h]

theorem claim_C6_witness :
    fireTick ⟨1/5, 30, 1⟩ 100 { initState with lastFireTime := 90 } =
      { initState with lastFireTime := 90 } :=
  (claim_C6 ⟨1/5, 30, 1⟩ 100 { initState with lastFireTime := 90 }).2 (by norm_num [initState])

/-- Claim C7 as stated is false: in updateEnemies the bottom-boundary test
runs BEFORE the projectile-collision scan for each enemy.  Concretely, an
enemy at y = -14 descending at 2 units/s over a 1 s tick ends at y = -16
(past the bottom), while a projectile sits exactly there with damage 5
against enemy health 5 (the projectile overlap and lethality are recorded
as the first two conjuncts).  The code takes the bottom path: the score
stays 0 (the 100 points are never credited), the player takes the
medium-difficulty bottom damage (health 100 drops to 80), the projectile
is NOT consumed and the enemy is removed - the opposite of the claimed
projectile-path precedence. -/
theorem claim_C7_counter :
    checkCollision ⟨0, -16, 0⟩ ⟨0, -16, 0⟩ (1/5) (4/5) = true ∧
    ((5 : ℚ) - 5 ≤ 0) ∧
    (updateEnemies false Difficulty.medium 1
      { initState with
          enemies := [{ pos := ⟨0, -14, 0⟩, vel := ⟨0, -2, 0⟩, health := 5, points := 100 }]
          projectiles := [{ pos := ⟨0, -16, 0⟩, vel := ⟨0, 10, 0⟩, damage := 5, lifetime := 1000 }] }).score = 0 ∧
    (updateEnemies false Difficulty.medium 1
      { initState with
          enemies := [{ pos := ⟨0, -14, 0⟩, vel := ⟨0, -2, 0⟩, health := 5, points := 100 }]
          projectiles := [{ pos := ⟨0, -16, 0⟩, vel := ⟨0, 10, 0⟩, damage := 5, lifetime := 1000 }] }).health = 80 ∧
    (updateEnemies false Difficulty.medium 1
      { initState with
          enemies := [{ pos := ⟨0, -14, 0⟩, vel := ⟨0, -2, 0⟩, health := 5, points := 100 }]
          projectiles := [{ pos := ⟨0, -16, 0⟩, vel := ⟨0, 10, 0⟩, damage := 5, lifetime := 1000 }] }).projectiles.length = 1 ∧
    (updateEnemies false Difficulty.medium 1
      { initState with
          enemies := [{ pos := ⟨0, -14, 0⟩, vel := ⟨0, -2, 0⟩, health := 5, points := 100 }]
          projectiles := [{ pos := ⟨0, -16, 0⟩, vel := ⟨0, 10, 0⟩, damage := 5, lifetime := 1000 }] }).enemies = [] := by
  refine ⟨by norm_num [checkCollision, distSq], by norm_num, ?_, ?_, ?_, ?_⟩ <;>
    norm_num [updateEnemies, enemyStep, damagePlayer, bottomDamageFor, initState, max_def]

/-- Claim C7, amended to the precedence the code implements: when an enemy
has crossed the bottom boundary during the tick (moved y below -15), the
per-enemy step takes the bottom-boundary path even if the pending
projectile scan would have destroyed that enemy (hypothesis hq): the
bottom damage is routed to damagePlayer (when the captured gameOver flag
is false), the enemy is removed, and neither the score nor the projectile
array nor the already-kept enemies are touched - no points are credited,
because for each enemy the boundary check is evaluated before the
projectile collisions. -/
theorem claim_C7 (g : Bool) (diff : Difficulty) (dt : ℚ) (e : Enemy) (s : GState)
    (hy : e.pos.y + e.vel.y * dt < -15)
    (_hq : (takeHits ⟨e.pos.x + e.vel.x * dt, e.pos.y + e.vel.y * dt, e.pos.z + e.vel.z * dt⟩
            e.health s.projectiles.reverse).2.2 = true) :
    enemyStep g diff dt e s =
      (if g = false then damagePlayer g (bottomDamageFor diff) s else s) ∧
    (enemyStep g diff dt e s).score = s.score ∧
    (enemyStep g diff dt e s).projectiles = s.projectiles ∧
    (enemyStep g diff dt e s).enemies = s.enemies := by
  have h1 : enemyStep g diff dt e s =
      if g = false then damagePlayer g (bottomDamageFor diff) s else s := by
    unfold enemyStep
    dsimp only
    rw [if_pos hy]
  refine ⟨h1, ?_, ?_, ?_⟩
  · rw [h1]
    cases g
    · simp [damagePlayer_score]
    · simp
  · rw [h1]
    cases g
    · simp [damagePlayer_projectiles]
    · simp
  · rw [h1]
    cases g
    · simp [damagePlayer_enemies]
    · simp

theorem claim_C7_witness :
    (enemyStep false Difficulty.medium 1
      { pos := ⟨0, -14, 0⟩, vel := ⟨0, -2, 0⟩, health := 5, points := 100 }
      { initState with
          projectiles := [{ pos := ⟨0, -16, 0⟩, vel := ⟨0, 10, 0⟩, damage := 5, lifetime := 1000 }] }).score =
    ({ initState with
          projectiles := [{ pos := ⟨0, -16, 0⟩, vel := ⟨0, 10, 0⟩, damage := 5, lifetime := 1000 }] } : GState).score :=
  (claim_C7 false Difficulty.medium 1
    { pos := ⟨0, -14, 0⟩, vel := ⟨0, -2, 0⟩, health := 5, points := 100 }
    { initState with
        projectiles := [{ pos := ⟨0, -16, 0⟩, vel := ⟨0, 10, 0⟩, damage := 5, lifetime := 1000 }] }
    (by norm_num) (by norm_num [takeHits, checkCollision, distSq, initState])).2.1

/-- Claim C8 is violated by the code: the spawn interval callback tests the
isPaused and gameOver values it captured when startGame created it during
the mount effect - both false - so a spawn-timer firing that happens while
the live state is paused and game-over still appends an enemy to the
collection (and the interval is never cleared when the game ends). -/
theorem claim_C8_run :
    (spawnTimerTick false false Difficulty.medium (1/2)
      { initState with gameOver := true, isPaused := true, lives := 0 }).enemies.length = 1 ∧
    ({ initState with gameOver := true, isPaused := true, lives := 0 } : GState).gameOver = true ∧
    ({ initState with gameOver := true, isPaused := true, lives := 0 } : GState).isPaused = true := by
  decide

/-- Claim C9: on hard difficulty every spawned enemy has health 15, straight
descent at 3 units per second (velocity (0, -3, 0)) and point value 150,
whatever the random horizontal draw, and the spawn interval chosen by
startGame is exactly 1000 ms. -/
theorem claim_C9 : ∀ r : ℚ,
    (spawnEnemy Difficulty.hard r).health = 15 ∧
    (spawnEnemy Difficulty.hard r).vel = ⟨0, -3, 0⟩ ∧
    (spawnEnemy Difficulty.hard r).points = 150 ∧
    spawnIntervalFor Difficulty.hard = 1000 :=
  fun _ => ⟨rfl, rfl, rfl, rfl⟩

/-- Claim C10: after updateHighScore(s) the persisted high score equals the
maximum of the previous one and s; a call with s not exceeding the stored
value only refreshes lastPlayed and leaves the record otherwise unchanged;
and along any sequence of calls the stored high score never decreases. -/
theorem claim_C10 (score now : ℕ) (d : GameData) :
    (updateHighScore score now d).highScore = max d.highScore score ∧
    (score ≤ d.highScore → updateHighScore score now d = { d with lastPlayed := now }) ∧
    ∀ evs : List (ℕ × ℕ),
      d.highScore ≤ (evs.foldl (fun st e => updateHighScore e.1 e.2 st) d).highScore := by
  refine ⟨?_, ?_, fun evs => updateHighScore_foldl_mono evs d⟩
  · unfold updateHighScore
    split
    next h => exact (max_eq_right (Nat.le_of_lt h)).symm
    next h => exact (max_eq_left (Nat.le_of_not_lt h)).symm
  · intro hle
    unfold updateHighScore
    rw [if_neg (Nat.not_lt.mpr hle)]

theorem claim_C10_witness :
    (updateHighScore 5 7 ⟨10, 1, 2⟩).highScore = max 10 5 ∧
    updateHighScore 5 7 ⟨10, 1, 2⟩ = ⟨10, 7, 2⟩ :=
  ⟨(claim_C10 5 7 ⟨10, 1, 2⟩).1, (claim_C10 5 7 ⟨10, 1, 2⟩).2.1 (by decide)⟩
